import Mathlib

/-!
Shallow embedding of the NGAReminder crawl-and-sync engine.

Sources embedded:
- `src/server/src/nga_crawler.py` : `NGACrawler.crawl_pages_range`,
  `NGACrawler.crawl_pages_range_with_callback` (concurrency is modelled by an
  explicit completion order, a permutation of the submitted page range, and the
  stop event by a Boolean function of the loop-iteration index);
- `src/server/src/database.py` : `NGADatabase.save_posts_batch`, `save_thread`,
  `parse_page_result` (SQLite tables are modelled as association lists; the
  transaction is modelled by a pending list committed at the end or rolled
  back to the base state on an injected failure index);
- `src/py_server/src/monitor.py` : `ThreadMonitor.check_thread`,
  `ThreadMonitor.load_from_config` (the existing-posts branch), `check_all`
  (exceptions raised inside the `try` body are modelled by an injected
  `Option String`; wall-clock timestamps by a `Nat` parameter).
-/

namespace NGAReminder

/-- A post row as produced by `parse_page_result` in `database.py`
(the parsed post dictionary: pid, tid, fid, author, date, timestamp,
content, post_number). -/
structure Post where
  pid : Nat
  tid : Nat
  fid : Nat
  author_name : String
  author_uid : Nat
  post_date : String
  post_timestamp : Nat
  content : String
  post_number : Nat
  deriving DecidableEq, Repr

/-- A thread-metadata row as produced by `parse_page_result`. -/
structure ThreadData where
  tid : Nat
  title : String
  author_name : String
  author_uid : Nat
  total_posts : Nat
  total_pages : Nat
  deriving DecidableEq, Repr

/-- A decoded page response of the forum API (`fetch_page` result): the
top-level fields used by the monitor (`tsubject`, `tauthor`, `tauthorid`,
`vrows`, `totalPage`, `perPage`) and the decoded `result` post list. -/
structure PageResult where
  tsubject : String
  tauthor : String
  tauthorid : Nat
  vrows : Nat
  totalPage : Nat
  perPage : Nat
  posts : List Post
  deriving DecidableEq, Repr

/-- `parse_page_result`, thread half: thread metadata extracted from a page
(tid is taken from the first post of the page, 0 if the page is empty). -/
def parse_page_thread (pg : PageResult) : ThreadData :=
  { tid := (pg.posts.head?.map (fun p => p.tid)).getD 0
    title := pg.tsubject
    author_name := pg.tauthor
    author_uid := pg.tauthorid
    total_posts := pg.vrows
    total_pages := pg.totalPage }

/-- `parse_page_result`, posts half: the decoded post list of the page. -/
def parse_page_posts (pg : PageResult) : List Post := pg.posts

/-- Python `range(a, b + 1)` as a list (`pages_to_fetch` construction). -/
def pyRange (a b : Nat) : List Nat := List.range' a (b + 1 - a)

/-! ### Concurrent range crawler (`nga_crawler.py`)

`fetch_page` returns `None` on transport or decode failure and the page
dictionary otherwise; it is modelled as `fetch : Nat → Option PageResult`
for a fixed tid.  `as_completed` yields the submitted futures in an
arbitrary completion order, modelled as an explicit list `order` of the
submitted page numbers (a permutation of the range, stated as a theorem
hypothesis).  `stop_event.is_set()` at the i-th loop iteration is modelled
as `stop i`. -/

/-- Loop body of `crawl_pages_range_with_callback`: walk the completions in
order; before handling a completion, check the stop event and return if it
is set (cancelling the remaining futures); otherwise invoke the callback
with the page number and its (possibly failed) result.  The returned list
is the sequence of callback invocations. -/
def crawl_callback_go {R : Type} (fetch : Nat → Option R) (stop : Nat → Bool) :
    List Nat → Nat → List (Nat × Option R)
  | [], _ => []
  | p :: rest, i =>
    if stop i then []
    else (p, fetch p) :: crawl_callback_go fetch stop rest (i + 1)

/-- `NGACrawler.crawl_pages_range_with_callback` (`nga_crawler.py:297-345`):
submits one fetch per page in `[start_page, end_page]` and invokes the
callback once per completion, in completion order, with `none` for a failed
fetch; returns immediately when `start_page > end_page`. -/
def crawl_pages_range_with_callback {R : Type} (fetch : Nat → Option R)
    (start_page end_page : Nat) (order : List Nat) (stop : Nat → Bool) :
    List (Nat × Option R) :=
  if start_page > end_page then []
  else crawl_callback_go fetch stop order 0

/-- `NGACrawler.crawl_pages_range` (`nga_crawler.py:248-295`): results list
initialised to `None` per page, then each completed future writes its result
at its own index (`results[index] = result`); a worker exception leaves the
slot `None`.  The write for index `i` carries `fetch pages[i]`. -/
def crawl_pages_range {R : Type} (fetch : Nat → Option R)
    (start_page end_page : Nat) (order : List Nat) : List (Option R) :=
  if start_page > end_page then []
  else
    let pages := pyRange start_page end_page
    order.foldl (fun results i => results.set i (fetch (pages.getD i 0)))
      (List.replicate pages.length none)

/-! ### Database layer (`database.py`) -/

/-- One monitoring-event row (`monitoring_events` table). -/
structure Event where
  tid : Nat
  event_type : String
  post_count : Nat
  message : String
  deriving DecidableEq, Repr

/-- One `monitored_threads` row (minus the tid key). -/
structure MonitoredRow where
  author_filter : Option (List Nat)
  author_notification : Option (List Nat)
  check_interval : Nat
  last_checked : Option Nat
  last_post_timestamp : Nat
  is_active : Bool
  deriving DecidableEq, Repr

/-- The SQLite database state: `threads`, `posts`, `monitored_threads` and
`monitoring_events` tables, as lists of rows (threads keyed by tid, posts
keyed by pid, monitored rows keyed by tid, events append-only). -/
structure DB where
  threads : List ThreadData
  posts : List Post
  monitored : List (Nat × MonitoredRow)
  events : List Event
  deriving DecidableEq, Repr

/-- `SELECT * FROM threads WHERE tid = ?` (`NGADatabase.get_thread`). -/
def get_thread (db : DB) (tid : Nat) : Option ThreadData :=
  db.threads.find? (fun t => t.tid == tid)

/-- `NGADatabase.save_thread` (`database.py:84-118`): insert, or on tid
conflict update only `title`, `total_posts` and `total_pages` (the author
columns keep their stored values). -/
def save_thread (db : DB) (t : ThreadData) : DB :=
  { db with threads :=
      if db.threads.any (fun u => u.tid == t.tid) then
        db.threads.map (fun u =>
          if u.tid == t.tid then
            { u with title := t.title, total_posts := t.total_posts,
                     total_pages := t.total_pages }
          else u)
      else db.threads ++ [t] }

/-- `SELECT pid FROM posts WHERE pid = ?` existence check. -/
def post_exists (db : DB) (pid : Nat) : Bool :=
  db.posts.any (fun p => p.pid == pid)

/-- `INSERT OR REPLACE INTO posts`: replace the row with the same pid, or
append a new row. -/
def upsert_post (ps : List Post) (p : Post) : List Post :=
  if ps.any (fun q => q.pid == p.pid) then
    ps.map (fun q => if q.pid == p.pid then p else q)
  else ps ++ [p]

/-- Loop of `NGADatabase.save_posts_batch` (`database.py:154-189`): insert
the posts one by one into the pending transaction, counting each executed
insert; if the insert at index `failAt` raises, roll the transaction back to
`base` and return the count accumulated so far; otherwise commit the pending
state at the end.  Returns `(saved_count, final posts table)`. -/
def save_posts_batch_go (base : List Post) (failAt : Option Nat) :
    List Post → List Post → Nat → Nat → Nat × List Post
  | pending, [], count, _ => (count, pending)
  | pending, p :: rest, count, idx =>
    if failAt == some idx then (count, base)
    else save_posts_batch_go base failAt (upsert_post pending p) rest (count + 1) (idx + 1)

/-- `NGADatabase.save_posts_batch`: batch insert with a single commit at the
end and a rollback on error; `failAt = some k` injects an exception at the
k-th insert (0-based), `none` means every insert succeeds. -/
def save_posts_batch (ps : List Post) (batch : List Post) (failAt : Option Nat) :
    Nat × List Post :=
  save_posts_batch_go ps failAt ps batch 0 0

/-! ### Monitor helpers (`monitor.py`) -/

/-- `SELECT * FROM monitored_threads WHERE tid = ? AND is_active = 1`. -/
def get_monitored_active (db : DB) (tid : Nat) : Option MonitoredRow :=
  (db.monitored.find? (fun kv => kv.1 == tid)).bind
    (fun kv => if kv.2.is_active then some kv.2 else none)

/-- `SELECT tid FROM monitored_threads WHERE tid = ?` (existence only, no
active condition — `monitor.py:266-270`). -/
def monitored_exists (db : DB) (tid : Nat) : Bool :=
  db.monitored.any (fun kv => kv.1 == tid)

/-- `UPDATE monitored_threads SET ... WHERE tid = ?`. -/
def update_monitored (db : DB) (tid : Nat) (f : MonitoredRow → MonitoredRow) : DB :=
  { db with monitored :=
      db.monitored.map (fun kv => if kv.1 == tid then (kv.1, f kv.2) else kv) }

/-- `INSERT INTO monitored_threads (...)`. -/
def insert_monitored (db : DB) (tid : Nat) (row : MonitoredRow) : DB :=
  { db with monitored := db.monitored ++ [(tid, row)] }

/-- `ThreadMonitor._log_event`: append one row to `monitoring_events`. -/
def log_event (db : DB) (tid : Nat) (ty : String) (cnt : Nat) (msg : String) : DB :=
  { db with events := db.events ++ [⟨tid, ty, cnt, msg⟩] }

/-- `SELECT MAX(post_number) FROM posts WHERE tid = ?`, with the `-1`
sentinel the sync code substitutes when the column is NULL
(`monitor.py:272-279`). -/
def max_post_number (ps : List Post) (tid : Nat) : Int :=
  ((ps.filter (fun p => p.tid == tid)).map
    (fun p => (p.post_number : Int))).foldl max (-1)

/-- `SELECT COUNT(*) FROM posts WHERE tid = ?`. -/
def post_count (ps : List Post) (tid : Nat) : Nat :=
  (ps.filter (fun p => p.tid == tid)).length

/-- `SELECT MAX(post_timestamp) FROM posts WHERE tid = ?` with
`fetchone()[0] or 0`. -/
def latest_timestamp (ps : List Post) (tid : Nat) : Nat :=
  ((ps.filter (fun p => p.tid == tid)).map
    (fun p => p.post_timestamp)).foldl Nat.max 0

/-! ### Incremental check (`ThreadMonitor.check_thread`, `monitor.py:425-637`) -/

/-- Page arithmetic of `check_thread` (`monitor.py:516-525`):
`old_last_page = (old_total_posts + posts_per_page - 1) // posts_per_page`. -/
def old_last_page (old_total_posts posts_per_page : Nat) : Nat :=
  (old_total_posts + posts_per_page - 1) / posts_per_page

/-- `start_page = max(1, old_total_posts // posts_per_page + 1)`, replaced by
`old_last_page + 1` when `old_total_posts` is a positive multiple of
`posts_per_page`. -/
def check_start_page (old_total_posts posts_per_page : Nat) : Nat :=
  let sp := Nat.max 1 (old_total_posts / posts_per_page + 1)
  if old_total_posts % posts_per_page = 0 ∧ 0 < old_total_posts then
    old_last_page old_total_posts posts_per_page + 1
  else sp

/-- `pages_to_fetch = list(range(start_page, end_page + 1))` with
`end_page = current_total_pages` (`monitor.py:527-534`). -/
def check_pages_to_fetch (old_total_posts posts_per_page current_total_pages : Nat) :
    List Nat :=
  pyRange (check_start_page old_total_posts posts_per_page) current_total_pages

/-- The dictionary `check_thread` returns: either an error entry, or the
new-post counts, the refreshed total and the filter-matching posts. -/
structure CheckResult where
  error : Option String := none
  new_posts : Nat := 0
  total_new_posts : Nat := 0
  total_posts : Nat := 0
  posts : List Post := []
  deriving DecidableEq, Repr

/-- Observable outcome of one `check_thread` call: the returned dictionary,
the database state afterwards, the page numbers requested from the crawler
in request order, and the notifications sent (title, message, url). -/
structure CheckOutput where
  result : CheckResult
  db : DB
  fetched : List Nat
  notified : List (String × String × String)
  deriving DecidableEq, Repr

/-- `ThreadMonitor.check_thread` body (`monitor.py:425-628`): look up the
active subscription and the stored thread row; fetch page 1; if the reported
total does not exceed the stored total, touch `last_checked`, log a `check`
event and refresh the thread metadata; otherwise fetch
`check_pages_to_fetch` sequentially, keep the posts whose pid is not yet
stored, apply the author filter to pick the notification-eligible ones,
batch-save the fresh posts, refresh metadata and `last_checked`, log a
`new_post` or `check` event, and send one notification per eligible post
whose author is in `author_notification`.  `now` is the wall-clock value
written into `last_checked`. -/
def check_thread (db : DB) (tid : Nat) (fetch : Nat → Option PageResult)
    (now : Nat) : CheckOutput :=
  match get_monitored_active db tid with
  | none => ⟨{ error := some ("Thread " ++ toString tid ++ " not monitored") }, db, [], []⟩
  | some cfg =>
    let author_uids := cfg.author_filter.getD []
    match get_thread db tid with
    | none => ⟨{ error := some ("Thread " ++ toString tid ++ " not found in database") }, db, [], []⟩
    | some thread =>
      let old_total_posts := thread.total_posts
      match fetch 1 with
      | none =>
        ⟨{ error := some "Failed to fetch thread" },
          log_event db tid "error" 0 "Failed to fetch thread", [1], []⟩
      | some fp =>
        let current_total_posts := fp.vrows
        let current_total_pages := fp.totalPage
        let posts_per_page := fp.perPage
        if (current_total_posts : Int) - (old_total_posts : Int) ≤ 0 then
          let db1 := update_monitored db tid (fun r => { r with last_checked := some now })
          let db2 := log_event db1 tid "check" 0 "No new posts"
          let db3 := save_thread db2 (parse_page_thread fp)
          ⟨{ new_posts := 0, total_posts := current_total_posts }, db3, [1], []⟩
        else
          let pages := check_pages_to_fetch old_total_posts posts_per_page current_total_pages
          let all_new_posts := ((pages.filterMap fetch).map parse_page_posts).flatten
          let new_posts_to_save := all_new_posts.filter (fun p => !(post_exists db p.pid))
          let filtered_new_posts := new_posts_to_save.filter
            (fun p => author_uids.isEmpty || author_uids.contains p.author_uid)
          let db1 := { db with posts := (save_posts_batch db.posts new_posts_to_save none).2 }
          let db2 := save_thread db1 (parse_page_thread fp)
          let db3 := update_monitored db2 tid (fun r => { r with last_checked := some now })
          let db4 :=
            if filtered_new_posts.length > 0 then
              log_event db3 tid "new_post" filtered_new_posts.length
                ("Found " ++ toString filtered_new_posts.length ++ " new posts (filtered by author)")
            else
              log_event db3 tid "check" new_posts_to_save.length
                ("Found " ++ toString new_posts_to_save.length ++ " new posts (none match filter)")
          let notified :=
            match cfg.author_notification with
            | none => []
            | some notification_uids =>
              (filtered_new_posts.filter (fun p => notification_uids.contains p.author_uid)).map
                (fun p =>
                  ("📬 " ++ thread.title,
                   p.author_name ++ ": " ++ p.content.take 100,
                   "https://bbs.nga.cn/read.php?tid=" ++ toString tid ++ "&pid=" ++ toString p.pid))
          ⟨{ new_posts := filtered_new_posts.length,
             total_new_posts := new_posts_to_save.length,
             total_posts := current_total_posts,
             posts := filtered_new_posts },
           db4, 1 :: pages, notified⟩

/-- `check_thread` with its surrounding `try`/`except Exception` clause
(`monitor.py:469,630-637`): an exception raised in the try body (modelled as
injected at its start) is caught, logged as an `error` event, and converted
into an error dictionary instead of propagating. -/
def check_thread_run (exc : Option String) (db : DB) (tid : Nat)
    (fetch : Nat → Option PageResult) (now : Nat) : CheckOutput :=
  match exc with
  | some e =>
    let msg := "Error checking thread: " ++ e
    ⟨{ error := some msg }, log_event db tid "error" 0 msg, [], []⟩
  | none => check_thread db tid fetch now

/-- `ThreadMonitor.list_monitored` tid projection: active monitored rows
joined with `threads` (`monitor.py:196-209`; the `ORDER BY last_checked`
presentation order is abstracted to stored order). -/
def list_monitored_tids (db : DB) : List Nat :=
  (db.monitored.filter
    (fun kv => kv.2.is_active && db.threads.any (fun t => t.tid == kv.1))).map
    (fun kv => kv.1)

/-- Summary returned by `check_all`, plus the trace of tids actually
processed by the loop. -/
structure CheckAllOutput where
  total : Nat
  checked : Nat
  new_posts : Nat
  db : DB
  processed : List Nat
  deriving DecidableEq, Repr

/-- One iteration of the `check_all` loop: run the thread's check on the
current database; a result carrying `new_posts` (a non-error result) adds to
the `checked` count and the new-post total; either way the thread was
processed. -/
def check_all_step (fetch : Nat → Nat → Option PageResult)
    (excs : Nat → Option String) (now : Nat)
    (acc : DB × Nat × Nat × List Nat) (tid : Nat) : DB × Nat × Nat × List Nat :=
  let out := check_thread_run (excs tid) acc.1 tid (fetch tid) now
  match out.result.error with
  | none => (out.db, acc.2.1 + 1, acc.2.2.1 + out.result.new_posts, acc.2.2.2 ++ [tid])
  | some _ => (out.db, acc.2.1, acc.2.2.1, acc.2.2.2 ++ [tid])

/-- `ThreadMonitor.check_all` (`monitor.py:639-677`): check every listed
thread in turn.  `excs tid` injects the exception (if any) raised during
that thread's check body. -/
def check_all (db : DB) (fetch : Nat → Nat → Option PageResult)
    (excs : Nat → Option String) (now : Nat) : CheckAllOutput :=
  let tids := list_monitored_tids db
  let fin := tids.foldl (check_all_step fetch excs now) (db, 0, 0, [])
  ⟨tids.length, fin.2.1, fin.2.2.1, fin.1, fin.2.2.2⟩

/-! ### Config sync (`ThreadMonitor.load_from_config`, `monitor.py:211-423`),
existing-posts branch (`monitor.py:281-390`). -/

/-- One `monitored_threads` entry of the config file. -/
structure ThreadConfig where
  tid : Nat
  author_filter : Option (List Nat)
  author_notification : Option (List Nat)
  check_interval : Nat
  deriving DecidableEq, Repr

/-- Sync page arithmetic (`monitor.py:337-341`):
`start_page = max_post_number // posts_per_page + 1`, clamped below by 1
(Python `//` is floor division, hence `Int.fdiv`). -/
def sync_start_page (maxPN : Int) (posts_per_page : Int) : Int :=
  let sp := Int.fdiv maxPN posts_per_page + 1
  if sp < 1 then 1 else sp

/-- Observable outcome of syncing one config entry: the database afterwards,
the page numbers requested in request order, and whether the entry was
counted as added, updated or errored. -/
structure SyncOutput where
  db : DB
  fetched : List Nat
  added : Nat
  updated : Nat
  errors : List String
  deriving DecidableEq, Repr

/-- The metadata upsert shared by both sub-branches (`monitor.py:300-330`
and `361-390`): update filter, notification set, interval and active flag of
an existing row, or insert a fresh row with `last_checked = now` and the
latest stored post timestamp. -/
def sync_upsert_monitored (db : DB) (tc : ThreadConfig) (existing : Bool)
    (now : Nat) : DB :=
  if existing then
    update_monitored db tc.tid (fun r =>
      { r with author_filter := tc.author_filter,
               author_notification := tc.author_notification,
               check_interval := tc.check_interval,
               is_active := true })
  else
    insert_monitored db tc.tid
      { author_filter := tc.author_filter
        author_notification := tc.author_notification
        check_interval := tc.check_interval
        last_checked := some now
        last_post_timestamp := latest_timestamp db.posts tc.tid
        is_active := true }

/-- Callback of the sync crawl (`monitor.py:349-357`): for a successfully
fetched page keep only the posts numbered beyond the stored maximum and
batch-save them if any remain. -/
def sync_page_callback (maxPN : Int) (d : DB)
    (pr : Nat × Option PageResult) : DB :=
  match pr.2 with
  | some r =>
    let posts_data := parse_page_posts r
    let new_posts := posts_data.filter (fun p => (p.post_number : Int) > maxPN)
    if new_posts.length > 0 then
      { d with posts := (save_posts_batch d.posts new_posts none).2 }
    else d
  | none => d

/-- `load_from_config`, branch for a thread that already has stored posts
(`monitor.py:281-390`): read the stored maximum post number; fetch page 1;
if `max_post_number ≥ current_total_posts - 1` only upsert the subscription
metadata; otherwise refresh the thread row, crawl
`[sync_start_page, current_total_pages]` with the callback above (completion
order `order`, no stop signal observed) and then upsert the metadata.
The theorem hypotheses restrict this to states where the branch is taken
(`post_count > 0`). -/
def sync_thread_with_posts (db : DB) (tc : ThreadConfig)
    (fetch : Nat → Option PageResult) (order : List Nat) (now : Nat) : SyncOutput :=
  let tid := tc.tid
  let existing := monitored_exists db tid
  let maxPN := max_post_number db.posts tid
  match fetch 1 with
  | none => ⟨db, [1], 0, 0, ["Failed to fetch thread " ++ toString tid]⟩
  | some fp =>
    let thread_data := parse_page_thread fp
    let current_total_posts := fp.vrows
    let current_total_pages := fp.totalPage
    if maxPN ≥ (current_total_posts : Int) - 1 then
      let db1 := sync_upsert_monitored db tc existing now
      ⟨db1, [1], if existing then 0 else 1, if existing then 1 else 0, []⟩
    else
      let posts_per_page := fp.perPage
      let start_page := (sync_start_page maxPN (posts_per_page : Int)).toNat
      let db1 := save_thread db thread_data
      let inv := crawl_pages_range_with_callback fetch start_page
        current_total_pages order (fun _ => false)
      let db2 := inv.foldl (sync_page_callback maxPN) db1
      let db3 := sync_upsert_monitored db2 tc existing now
      ⟨db3, 1 :: pyRange start_page current_total_pages,
        if existing then 0 else 1, if existing then 1 else 0, []⟩

/-- `(db.monitored row for tid)`, no active condition. -/
def get_monitored (db : DB) (tid : Nat) : Option MonitoredRow :=
  (db.monitored.find? (fun kv => kv.1 == tid)).map (fun kv => kv.2)

/-! ## Helper lemmas -/

theorem pyRange_getLast? (a b : Nat) (h : a ≤ b) :
    (pyRange a b).getLast? = some b := by
  unfold pyRange
  have hn : b + 1 - a = (b - a) + 1 := by omega
  rw [hn, List.range'_concat, List.getLast?_concat]
  congr 1
  omega

theorem length_pyRange (a b : Nat) : (pyRange a b).length = b + 1 - a := by
  simp [pyRange]

theorem mem_pyRange {a b p : Nat} : p ∈ pyRange a b ↔ a ≤ p ∧ p ≤ b := by
  simp only [pyRange, List.mem_range'_1]
  omega

theorem nodup_pyRange (a b : Nat) : (pyRange a b).Nodup := by
  simpa [pyRange] using List.nodup_range' (s := a) (n := b + 1 - a)

/-! ## C1 -/

/-- C1: incremental-check page arithmetic.  For a monitored thread with
stored `old_total_posts > 0` and a page-1 fetch reporting `posts_per_page`
and a larger `current_total_posts`, the first page fetched is
`old_total_posts / posts_per_page + 1` when `old_total_posts` is not a
multiple of `posts_per_page`, and the page after the old last page when it
is; `posts_per_page = 20`, `old_total_posts = 41` yields `start_page = 3`;
the fetched range ends at the reported current total page count. -/
theorem C1_check_page_arithmetic (old_total_posts posts_per_page
    current_total_posts current_total_pages : Nat)
    (hppp : 0 < posts_per_page) (hold : 0 < old_total_posts)
    (hgrow : old_total_posts < current_total_posts) :
    (¬ posts_per_page ∣ old_total_posts →
      check_start_page old_total_posts posts_per_page
        = old_total_posts / posts_per_page + 1)
    ∧ (posts_per_page ∣ old_total_posts →
      check_start_page old_total_posts posts_per_page
        = old_last_page old_total_posts posts_per_page + 1)
    ∧ check_start_page 41 20 = 3
    ∧ (check_start_page old_total_posts posts_per_page ≤ current_total_pages →
      (check_pages_to_fetch old_total_posts posts_per_page
        current_total_pages).getLast? = some current_total_pages) := by
  refine ⟨?_, ?_, by decide, ?_⟩
  · intro hndvd
    have hmod : ¬ old_total_posts % posts_per_page = 0 := by
      intro h
      exact hndvd (Nat.dvd_of_mod_eq_zero h)
    unfold check_start_page
    rw [if_neg (by simp [hmod])]
    exact Nat.max_eq_right (Nat.le_add_left 1 _)
  · intro hdvd
    have hmod : old_total_posts % posts_per_page = 0 :=
      Nat.mod_eq_zero_of_dvd hdvd
    unfold check_start_page
    rw [if_pos ⟨hmod, hold⟩]
  · intro hle
    exact pyRange_getLast? _ _ hle

/-- Witness for C1 at the spec's example: `posts_per_page = 20`,
`old_total_posts = 41`, `current_total_posts = 45`, 3 total pages. -/
theorem C1_check_page_arithmetic_witness :
    check_start_page 41 20 = 41 / 20 + 1
    ∧ (check_pages_to_fetch 41 20 3).getLast? = some 3 := by
  have h := C1_check_page_arithmetic 41 20 45 3 (by decide) (by decide) (by decide)
  exact ⟨h.1 (by decide), h.2.2.2 (by decide)⟩

/-! ## C9 -/

/-- A concrete two-post batch exercising `save_posts_batch`. -/
def c9_post_a : Post :=
  ⟨101, 7, 1, "alice", 100, "2024-01-01 12:00", 5, "first", 0⟩

/-- Second post of the C9 batch. -/
def c9_post_b : Post :=
  ⟨102, 7, 1, "bob", 200, "2024-01-01 12:05", 6, "second", 1⟩

/-- C9 (code bug): `save_posts_batch` on the batch `[c9_post_a, c9_post_b]`
whose second insert raises rolls the transaction back — the posts table is
unchanged, so zero posts of the batch are persisted — yet returns 1, the
number of inserts executed before the failure, contradicting its own
docstring (`Number of posts successfully saved`) and the spec's
`savePostsBatch -> count persisted`.  On the failure-free run it returns 2
with both posts persisted, confirming the atomicity half of the claim. -/
theorem C9_batch_count_bug :
    (save_posts_batch [] [c9_post_a, c9_post_b] (some 1)).1 = 1
    ∧ (save_posts_batch [] [c9_post_a, c9_post_b] (some 1)).2 = []
    ∧ ((save_posts_batch [] [c9_post_a, c9_post_b] (some 1)).2.length = 0)
    ∧ (save_posts_batch [] [c9_post_a, c9_post_b] none).1 = 2
    ∧ (save_posts_batch [] [c9_post_a, c9_post_b] none).2 = [c9_post_a, c9_post_b] := by
  refine ⟨rfl, rfl, rfl, rfl, ?_⟩
  decide

/-! ## C3 / C4 crawler lemmas -/

theorem crawl_callback_go_no_stop {R : Type} (fetch : Nat → Option R)
    (order : List Nat) : ∀ i : Nat,
    crawl_callback_go fetch (fun _ => false) order i
      = order.map (fun p => (p, fetch p)) := by
  induction order with
  | nil => intro i; rfl
  | cons p rest ih =>
    intro i
    simp [crawl_callback_go, ih (i + 1)]

theorem crawl_callback_go_stop {R : Type} (fetch : Nat → Option R)
    (stop : Nat → Bool) (k : Nat) (hk : stop k = true)
    (hmin : ∀ j, j < k → stop j = false) :
    ∀ (order : List Nat) (i : Nat), i ≤ k →
    crawl_callback_go fetch stop order i
      = (order.take (k - i)).map (fun p => (p, fetch p)) := by
  intro order
  induction order with
  | nil => intro i _; simp [crawl_callback_go]
  | cons p rest ih =>
    intro i hi
    by_cases hstop : stop i = true
    · have hik : i = k := by
        rcases Nat.lt_or_ge i k with h | h
        · rw [hmin i h] at hstop; exact absurd hstop (by simp)
        · omega
      subst hik
      simp [crawl_callback_go, hstop, Nat.sub_self]
    · have hik : i < k := by
        rcases Nat.lt_or_ge i k with h | h
        · exact h
        · have hik : i = k := by omega
          rw [hik] at hstop
          exact absurd hk hstop
      have hsub : k - i = (k - (i + 1)) + 1 := by omega
      rw [crawl_callback_go, if_neg hstop, hsub, List.take_succ_cons,
        List.map_cons, ih (i + 1) (by omega)]

/-! ## C3 -/

/-- C3: exactly-once page callbacks with failure markers.  For every call of
`crawl_pages_range_with_callback` with `start_page ≤ end_page` and no
cancellation, whatever the completion order, the callback fires exactly once
per page of `[start_page, end_page]` — in completion order — carrying
`none` for a page whose fetch failed, and a single page's failure does not
abort the crawl (all `end_page + 1 - start_page` invocations happen). -/
theorem C3_exactly_once_callbacks {R : Type} (fetch : Nat → Option R)
    (start_page end_page : Nat) (order : List Nat)
    (hperm : order.Perm (pyRange start_page end_page))
    (hle : start_page ≤ end_page) :
    crawl_pages_range_with_callback fetch start_page end_page order (fun _ => false)
      = order.map (fun p => (p, fetch p))
    ∧ ((crawl_pages_range_with_callback fetch start_page end_page order
        (fun _ => false)).map Prod.fst).Perm (pyRange start_page end_page)
    ∧ (∀ pr ∈ crawl_pages_range_with_callback fetch start_page end_page order
        (fun _ => false), pr.2 = fetch pr.1)
    ∧ (crawl_pages_range_with_callback fetch start_page end_page order
        (fun _ => false)).length = end_page + 1 - start_page
    ∧ ∀ p ∈ pyRange start_page end_page,
        ((crawl_pages_range_with_callback fetch start_page end_page order
          (fun _ => false)).map Prod.fst).count p = 1 := by
  have hrun : crawl_pages_range_with_callback fetch start_page end_page order
      (fun _ => false) = order.map (fun p => (p, fetch p)) := by
    unfold crawl_pages_range_with_callback
    rw [if_neg (by omega)]
    exact crawl_callback_go_no_stop fetch order 0
  have hfst : (crawl_pages_range_with_callback fetch start_page end_page order
      (fun _ => false)).map Prod.fst = order := by
    have hcomp : (Prod.fst ∘ fun p : Nat => (p, fetch p)) = id := by
      funext p
      rfl
    rw [hrun, List.map_map, hcomp, List.map_id]
  refine ⟨hrun, ?_, ?_, ?_, ?_⟩
  · rw [hfst]; exact hperm
  · intro pr hpr
    rw [hrun] at hpr
    rcases List.mem_map.mp hpr with ⟨p, _, hp⟩
    rw [← hp]
  · rw [hrun, List.length_map, hperm.length_eq, length_pyRange]
  · intro p hp
    rw [hfst, hperm.count_eq]
    exact List.count_eq_one_of_mem (nodup_pyRange _ _) hp

/-- Witness for C3 at the spec's example: pages `[2, 6]`, page 4 failing,
completion order `[5, 3, 2, 6, 4]` — exactly 5 invocations, one of them
`(4, none)`. -/
theorem C3_exactly_once_callbacks_witness :
    (crawl_pages_range_with_callback
        (fun p => if p = 4 then none else some p) 2 6 [5, 3, 2, 6, 4]
        (fun _ => false)).length = 5
    ∧ (4, (none : Option Nat)) ∈ crawl_pages_range_with_callback
        (fun p => if p = 4 then none else some p) 2 6 [5, 3, 2, 6, 4]
        (fun _ => false) := by
  have h := C3_exactly_once_callbacks (fun p => if p = 4 then none else some p)
    2 6 [5, 3, 2, 6, 4] (by decide) (by decide)
  refine ⟨h.2.2.2.1, ?_⟩
  rw [h.1]
  decide

/-! ## C4 -/

/-- C4: cancellation is a never-again property.  If the stop signal is first
observed at loop iteration `k` (false before, true at `k`), the crawl's
callback invocations are exactly those for the first `k` completions — every
page that had not completed before the observation gets no callback, the
function returns that prefix, and the already-invoked callbacks remain in
the returned sequence (nothing is rolled back). -/
theorem C4_cancellation_never_again {R : Type} (fetch : Nat → Option R)
    (start_page end_page k : Nat) (order : List Nat) (stop : Nat → Bool)
    (hperm : order.Perm (pyRange start_page end_page))
    (hle : start_page ≤ end_page)
    (hk : stop k = true) (hmin : ∀ j, j < k → stop j = false) :
    crawl_pages_range_with_callback fetch start_page end_page order stop
      = ((order.take k).map (fun p => (p, fetch p)))
    ∧ (∀ p ∈ order.drop k, ∀ r : Option R,
        (p, r) ∉ crawl_pages_range_with_callback fetch start_page end_page order stop)
    ∧ (∀ pr ∈ (order.take k).map (fun p => (p, fetch p)),
        pr ∈ crawl_pages_range_with_callback fetch start_page end_page order stop) := by
  have hrun : crawl_pages_range_with_callback fetch start_page end_page order stop
      = (order.take k).map (fun p => (p, fetch p)) := by
    unfold crawl_pages_range_with_callback
    rw [if_neg (by omega)]
    simpa using crawl_callback_go_stop fetch stop k hk hmin order 0 (Nat.zero_le k)
  have hnd : order.Nodup := hperm.symm.nodup (nodup_pyRange _ _)
  refine ⟨hrun, ?_, ?_⟩
  · intro p hpdrop r hmem
    rw [hrun] at hmem
    rcases List.mem_map.mp hmem with ⟨q, hqtake, hq⟩
    have hpq : q = p := congrArg Prod.fst hq
    subst hpq
    exact List.disjoint_take_drop hnd (le_refl k) hqtake hpdrop
  · intro pr hpr
    rw [hrun]
    exact hpr

/-- Witness for C4: a 12-page crawl in page order whose stop signal is first
observed at iteration 10 delivers exactly the first 10 callbacks and never
invokes the callback for page 11. -/
theorem C4_cancellation_never_again_witness :
    crawl_pages_range_with_callback (fun p => some p) 1 12 (pyRange 1 12)
        (fun i => decide (10 ≤ i))
      = ((pyRange 1 12).take 10).map (fun p => (p, some p))
    ∧ ∀ r : Option Nat, (11, r) ∉ crawl_pages_range_with_callback
        (fun p => some p) 1 12 (pyRange 1 12) (fun i => decide (10 ≤ i)) := by
  have h := C4_cancellation_never_again (fun p => some p) 1 12 10 (pyRange 1 12)
    (fun i => decide (10 ≤ i)) (List.Perm.refl _) (by decide) (by decide)
    (by intro j hj; simp; omega)
  exact ⟨h.1, fun r => h.2.1 11 (by decide) r⟩

/-! ## C10 -/

theorem foldl_set_length {R : Type} (f : Nat → Option R) (order : List Nat)
    (init : List (Option R)) :
    (order.foldl (fun results i => results.set i (f i)) init).length
      = init.length := by
  induction order generalizing init with
  | nil => rfl
  | cons j rest ih => rw [List.foldl_cons, ih, List.length_set]

theorem foldl_set_getElem? {R : Type} (f : Nat → Option R) (order : List Nat)
    (init : List (Option R)) (j : Nat) :
    (order.foldl (fun results i => results.set i (f i)) init)[j]?
      = if j ∈ order ∧ j < init.length then some (f j) else init[j]? := by
  induction order generalizing init with
  | nil => simp
  | cons a rest ih =>
    rw [List.foldl_cons, ih, List.length_set]
    by_cases hlt : j < init.length
    · by_cases hmem : j ∈ rest
      · rw [if_pos ⟨hmem, hlt⟩, if_pos ⟨List.mem_cons_of_mem a hmem, hlt⟩]
      · by_cases haj : a = j
        · subst haj
          rw [if_neg (by tauto), if_pos ⟨List.mem_cons_self a rest, hlt⟩,
            List.getElem?_set_self hlt]
        · rw [if_neg (by tauto), if_neg (by
            rintro ⟨h, _⟩
            rcases List.mem_cons.mp h with h | h
            · exact haj h.symm
            · exact hmem h),
            List.getElem?_set_ne haj]
    · rw [if_neg (by tauto), if_neg (by tauto),
        List.getElem?_eq_none (by rw [List.length_set]; omega),
        List.getElem?_eq_none (by omega)]

/-- C10 (implicit): `crawl_pages_range` returns `[]` when
`start_page > end_page`, and otherwise — whatever the completion order of
the concurrent fetches — a list of exactly `end_page - start_page + 1`
entries in page order whose i-th entry is the fetch result for page
`start_page + i`, `none` when that page's fetch failed. -/
theorem C10_range_in_page_order {R : Type} (fetch : Nat → Option R)
    (start_page end_page : Nat) (order : List Nat) :
    (start_page > end_page → crawl_pages_range fetch start_page end_page order = [])
    ∧ (start_page ≤ end_page →
        order.Perm (List.range (end_page + 1 - start_page)) →
        crawl_pages_range fetch start_page end_page order
          = (pyRange start_page end_page).map fetch) := by
  constructor
  · intro hgt
    unfold crawl_pages_range
    rw [if_pos hgt]
  · intro hle hperm
    unfold crawl_pages_range
    rw [if_neg (by omega)]
    apply List.ext_getElem?
    intro j
    rw [foldl_set_getElem?]
    have hlen : (pyRange start_page end_page).length = end_page + 1 - start_page :=
      length_pyRange _ _
    have hmem : j ∈ order ↔ j < end_page + 1 - start_page := by
      rw [hperm.mem_iff, List.mem_range]
    by_cases hj : j < end_page + 1 - start_page
    · have hpg : (pyRange start_page end_page).getD j 0 = start_page + j := by
        rw [List.getD_eq_getElem _ _ (by omega)]
        simp [pyRange]
      rw [if_pos ⟨hmem.mpr hj, by simp [List.length_replicate, hlen]; omega⟩, hpg]
      rw [List.getElem?_eq_getElem (by simp [hlen]; omega)]
      simp [pyRange]
    · rw [if_neg (by rw [hmem]; omega)]
      rw [List.getElem?_eq_none (by simp [List.length_replicate, hlen]; omega),
        List.getElem?_eq_none (by simp [hlen]; omega)]

/-- Witness for C10: pages `[2, 6]` with page 4 failing, completion order
`[3, 0, 4, 1, 2]` of the five indices, yields the five results in page
order with `none` in the page-4 slot. -/
theorem C10_range_in_page_order_witness :
    crawl_pages_range (fun p => if p = 4 then none else some p) 2 6 [3, 0, 4, 1, 2]
      = [some 2, some 3, none, some 5, some 6]
    ∧ crawl_pages_range (fun p : Nat => some p) 7 3 [0] = [] := by
  have h := C10_range_in_page_order (fun p => if p = 4 then none else some p)
    2 6 [3, 0, 4, 1, 2]
  have h2 := C10_range_in_page_order (fun p : Nat => some p) 7 3 [0]
  refine ⟨?_, h2.1 (by decide)⟩
  rw [h.2 (by decide) (by decide)]
  decide

/-! ## C2

A concrete monitored state whose stored maximum post number (10) disagrees
with the stored previous total (41, so `old_total_posts - 1 = 40`): page 2
holds a post (pid 601) that the re-anchored range would cover but the actual
incremental check never fetches. -/

/-- Stored thread row for the C2 state: 41 posts over 3 pages. -/
def c2_thread : ThreadData := ⟨77, "t", "op", 1, 41, 3⟩

/-- The single stored post of thread 77, with `post_number = 10`. -/
def c2_stored_post : Post := ⟨500, 77, 9, "u", 100, "d", 10, "x", 10⟩

/-- Active subscription row for thread 77 with no filters. -/
def c2_row : MonitoredRow := ⟨none, none, 300, none, 0, true⟩

/-- The C2 database state. -/
def c2_db : DB := ⟨[c2_thread], [c2_stored_post], [(77, c2_row)], []⟩

/-- Fresh page 1: 45 posts, 3 pages, 20 per page. -/
def c2_page1 : PageResult :=
  ⟨"t", "op", 1, 45, 3, 20, [⟨600, 77, 9, "u", 100, "d", 20, "y", 0⟩]⟩

/-- Page 2, holding the unseen post pid 601 (`post_number = 25`). -/
def c2_page2 : PageResult :=
  ⟨"t", "op", 1, 45, 3, 20, [⟨601, 77, 9, "u", 100, "d", 21, "y", 25⟩]⟩

/-- Page 3, holding the unseen post pid 602 (`post_number = 44`). -/
def c2_page3 : PageResult :=
  ⟨"t", "op", 1, 45, 3, 20, [⟨602, 77, 9, "u", 100, "d", 22, "y", 44⟩]⟩

/-- The fetch function serving the three pages of thread 77. -/
def c2_fetch : Nat → Option PageResult := fun p =>
  if p = 1 then some c2_page1 else if p = 2 then some c2_page2
  else if p = 3 then some c2_page3 else none

/-- C2 counterexample: in the C2 state the stored maximum post number (10)
differs from `old_total_posts - 1` (40), yet `check_thread` fetches pages
`[1, 3]` — the range derived from the previous total — and not the
re-anchored range `[1, 2, 3]` starting at
`sync_start_page (max_post_number) = 1`; the page-2 post pid 601, which the
re-anchored range would have fetched, is absent from storage afterwards.
The claim that the incremental check re-anchors its start page on the
stored max post number is therefore false. -/
theorem C2_counterexample :
    max_post_number c2_db.posts 77 = 10
    ∧ (get_thread c2_db 77).map (fun t => t.total_posts) = some 41
    ∧ max_post_number c2_db.posts 77 ≠ (41 : Int) - 1
    ∧ (sync_start_page (max_post_number c2_db.posts 77) 20).toNat = 1
    ∧ (check_thread c2_db 77 c2_fetch 1000).fetched = [1, 3]
    ∧ 1 :: pyRange ((sync_start_page (max_post_number c2_db.posts 77) 20).toNat) 3
        ≠ [1, 3]
    ∧ (check_thread c2_db 77 c2_fetch 1000).db.posts.map (fun p => p.pid)
        = [500, 602] := by
  refine ⟨rfl, rfl, by decide, rfl, rfl, by decide, rfl⟩

/-- C2 amended: during an incremental check that finds new posts,
`check_thread` derives the fetched page range solely from the stored
previous `total_posts` and the reported `posts_per_page`/`total_pages` —
pages `1 :: check_pages_to_fetch old_total_posts posts_per_page
total_pages` — and never consults the stored max post number: the fetched
range is unchanged under arbitrary replacement of the stored posts table.
(Re-anchoring on the stored max post number exists only in the config-sync
path `load_from_config`, covered by C5.) -/
theorem C2_amended_check_anchored_on_total (db : DB) (tid : Nat)
    (fetch : Nat → Option PageResult) (now : Nat) (cfg : MonitoredRow)
    (thread : ThreadData) (fp : PageResult)
    (hcfg : get_monitored_active db tid = some cfg)
    (hth : get_thread db tid = some thread)
    (hfp : fetch 1 = some fp)
    (hnew : thread.total_posts < fp.vrows) :
    (check_thread db tid fetch now).fetched
      = 1 :: check_pages_to_fetch thread.total_posts fp.perPage fp.totalPage
    ∧ ∀ posts2 : List Post,
        (check_thread { db with posts := posts2 } tid fetch now).fetched
          = (check_thread db tid fetch now).fetched := by
  have hmain : ∀ posts2 : List Post,
      (check_thread { db with posts := posts2 } tid fetch now).fetched
        = 1 :: check_pages_to_fetch thread.total_posts fp.perPage fp.totalPage := by
    intro posts2
    have hcfg2 : get_monitored_active { db with posts := posts2 } tid = some cfg := hcfg
    have hth2 : get_thread { db with posts := posts2 } tid = some thread := hth
    have hcond : ¬ ((fp.vrows : Int) - (thread.total_posts : Int) ≤ 0) := by
      omega
    simp only [check_thread, hcfg2, hth2, hfp]
    rw [if_neg hcond]
  have hself := hmain db.posts
  exact ⟨hself, fun posts2 => (hmain posts2).trans hself.symm⟩

/-- Witness for the amended C2 at the C2 state: the fetched pages are
`1 :: check_pages_to_fetch 41 20 3` and do not change when the stored posts
table is emptied. -/
theorem C2_amended_check_anchored_on_total_witness :
    (check_thread c2_db 77 c2_fetch 1000).fetched
      = 1 :: check_pages_to_fetch 41 20 3
    ∧ (check_thread { c2_db with posts := [] } 77 c2_fetch 1000).fetched
      = (check_thread c2_db 77 c2_fetch 1000).fetched := by
  have h := C2_amended_check_anchored_on_total c2_db 77 c2_fetch 1000 c2_row
    c2_thread c2_page1 rfl rfl rfl (by decide)
  exact ⟨h.1, h.2 []⟩

/-! ## Database lemmas shared by C5, C6 and C7 -/

@[simp] theorem posts_save_thread (db : DB) (t : ThreadData) :
    (save_thread db t).posts = db.posts := rfl

@[simp] theorem monitored_save_thread (db : DB) (t : ThreadData) :
    (save_thread db t).monitored = db.monitored := rfl

@[simp] theorem events_save_thread (db : DB) (t : ThreadData) :
    (save_thread db t).events = db.events := rfl

@[simp] theorem posts_log_event (db : DB) (tid : Nat) (ty : String)
    (c : Nat) (m : String) : (log_event db tid ty c m).posts = db.posts := rfl

@[simp] theorem threads_log_event (db : DB) (tid : Nat) (ty : String)
    (c : Nat) (m : String) : (log_event db tid ty c m).threads = db.threads := rfl

@[simp] theorem monitored_log_event (db : DB) (tid : Nat) (ty : String)
    (c : Nat) (m : String) : (log_event db tid ty c m).monitored = db.monitored := rfl

@[simp] theorem posts_update_monitored (db : DB) (tid : Nat)
    (f : MonitoredRow → MonitoredRow) :
    (update_monitored db tid f).posts = db.posts := rfl

@[simp] theorem threads_update_monitored (db : DB) (tid : Nat)
    (f : MonitoredRow → MonitoredRow) :
    (update_monitored db tid f).threads = db.threads := rfl

@[simp] theorem events_update_monitored (db : DB) (tid : Nat)
    (f : MonitoredRow → MonitoredRow) :
    (update_monitored db tid f).events = db.events := rfl

@[simp] theorem threads_insert_monitored (db : DB) (tid : Nat) (r : MonitoredRow) :
    (insert_monitored db tid r).threads = db.threads := rfl

@[simp] theorem posts_insert_monitored (db : DB) (tid : Nat) (r : MonitoredRow) :
    (insert_monitored db tid r).posts = db.posts := rfl

@[simp] theorem events_insert_monitored (db : DB) (tid : Nat) (r : MonitoredRow) :
    (insert_monitored db tid r).events = db.events := rfl

theorem save_posts_batch_go_none (base : List Post) :
    ∀ (batch pending : List Post) (count idx : Nat),
    save_posts_batch_go base none pending batch count idx
      = (count + batch.length, batch.foldl upsert_post pending) := by
  intro batch
  induction batch with
  | nil => intro pending count idx; simp [save_posts_batch_go]
  | cons p rest ih =>
    intro pending count idx
    rw [save_posts_batch_go, if_neg (by simp), ih]
    simp only [List.length_cons, List.foldl_cons]
    refine congrArg (fun n => (n, _)) ?_
    omega

/-- A failure-free `save_posts_batch` counts the whole batch and upserts the
posts in order. -/
theorem save_posts_batch_none (ps batch : List Post) :
    save_posts_batch ps batch none = (batch.length, batch.foldl upsert_post ps) := by
  unfold save_posts_batch
  rw [save_posts_batch_go_none]
  simp

theorem mem_upsert_post {q : Post} {ps : List Post} {p : Post}
    (h : q ∈ upsert_post ps p) : q ∈ ps ∨ q = p := by
  unfold upsert_post at h
  by_cases hany : ps.any (fun r => r.pid == p.pid)
  · rw [if_pos hany] at h
    rcases List.mem_map.mp h with ⟨x, hx, hxq⟩
    by_cases hxp : x.pid == p.pid
    · right
      rw [if_pos hxp] at hxq
      exact hxq.symm
    · left
      rw [if_neg hxp] at hxq
      exact hxq ▸ hx
  · rw [if_neg hany] at h
    rcases List.mem_append.mp h with h | h
    · exact Or.inl h
    · exact Or.inr (List.mem_singleton.mp h)

theorem mem_foldl_upsert {q : Post} :
    ∀ {batch ps : List Post}, q ∈ batch.foldl upsert_post ps →
    q ∈ ps ∨ q ∈ batch := by
  intro batch
  induction batch with
  | nil => intro ps h; exact Or.inl h
  | cons p rest ih =>
    intro ps h
    rw [List.foldl_cons] at h
    rcases ih h with h' | h'
    · rcases mem_upsert_post h' with h'' | h''
      · exact Or.inl h''
      · exact Or.inr (h'' ▸ List.mem_cons_self p rest)
    · exact Or.inr (List.mem_cons_of_mem p h')

/-- Upserting a batch of posts whose pids are pairwise distinct and absent
from the table appends the batch. -/
theorem foldl_upsert_fresh :
    ∀ (batch ps : List Post),
    (∀ p ∈ batch, ps.any (fun q => q.pid == p.pid) = false) →
    (batch.map (fun p => p.pid)).Nodup →
    batch.foldl upsert_post ps = ps ++ batch := by
  intro batch
  induction batch with
  | nil => intro ps _ _; simp
  | cons p rest ih =>
    intro ps hfresh hnd
    rw [List.foldl_cons]
    have hp : upsert_post ps p = ps ++ [p] := by
      unfold upsert_post
      rw [if_neg (by rw [hfresh p (List.mem_cons_self p rest)]; simp)]
    rw [hp, ih (ps ++ [p]) ?_ (by
      rw [List.map_cons] at hnd
      exact hnd.of_cons)]
    · simp
    · intro q hq
      have hqps : ps.any (fun r => r.pid == q.pid) = false :=
        hfresh q (List.mem_cons_of_mem p hq)
      have hqp : ¬ q.pid = p.pid := by
        rw [List.map_cons, List.nodup_cons] at hnd
        intro hcontra
        exact hnd.1 (hcontra ▸ List.mem_map_of_mem (fun r => r.pid) hq)
      simp only [List.any_append, hqps, Bool.false_or, List.any_cons,
        List.any_nil, Bool.or_false]
      simp only [beq_eq_false_iff_ne, ne_eq]
      exact fun h => hqp h.symm

/-! ## C6 -/

/-- The posts gathered by the incremental check's sequential page loop:
the decoded posts of every successfully fetched page of the computed
range, in page order. -/
def fetched_posts (old_total_posts posts_per_page current_total_pages : Nat)
    (fetch : Nat → Option PageResult) : List Post :=
  (((check_pages_to_fetch old_total_posts posts_per_page
      current_total_pages).filterMap fetch).map parse_page_posts).flatten

/-- The spec's notification-eligibility predicate: with an absent or empty
author filter every author qualifies, otherwise only the listed author
ids. -/
def notification_eligible (af : Option (List Nat)) (p : Post) : Bool :=
  match af with
  | none => true
  | some l => l.isEmpty || l.contains p.author_uid

theorem notification_eligible_eq (af : Option (List Nat)) (p : Post) :
    ((af.getD []).isEmpty || (af.getD []).contains p.author_uid)
      = notification_eligible af p := by
  cases af <;> rfl

/-- C6: author filter affects notification eligibility only; pid is the
dedup key.  In an incremental check that finds new posts, among the fetched
posts exactly those whose pid is not already stored are persisted (appended
to the posts table), regardless of the author filter; of those, exactly the
ones satisfying the eligibility predicate (all of them when the filter is
empty or absent) are returned as notification-eligible, and the result's
counts are the sizes of the two lists. -/
theorem C6_pid_dedup_author_filter (db : DB) (tid : Nat)
    (fetch : Nat → Option PageResult) (now : Nat) (cfg : MonitoredRow)
    (thread : ThreadData) (fp : PageResult)
    (hcfg : get_monitored_active db tid = some cfg)
    (hth : get_thread db tid = some thread)
    (hfp : fetch 1 = some fp)
    (hnew : thread.total_posts < fp.vrows)
    (hnodup : ((fetched_posts thread.total_posts fp.perPage fp.totalPage
        fetch).map (fun p => p.pid)).Nodup) :
    (check_thread db tid fetch now).db.posts
      = db.posts ++ (fetched_posts thread.total_posts fp.perPage fp.totalPage
          fetch).filter (fun p => !(post_exists db p.pid))
    ∧ (check_thread db tid fetch now).result.total_new_posts
      = ((fetched_posts thread.total_posts fp.perPage fp.totalPage
          fetch).filter (fun p => !(post_exists db p.pid))).length
    ∧ (check_thread db tid fetch now).result.posts
      = ((fetched_posts thread.total_posts fp.perPage fp.totalPage
          fetch).filter (fun p => !(post_exists db p.pid))).filter
          (notification_eligible cfg.author_filter)
    ∧ (check_thread db tid fetch now).result.new_posts
      = (((fetched_posts thread.total_posts fp.perPage fp.totalPage
          fetch).filter (fun p => !(post_exists db p.pid))).filter
          (notification_eligible cfg.author_filter)).length := by
  have hcond : ¬ ((fp.vrows : Int) - (thread.total_posts : Int) ≤ 0) := by
    omega
  have hsave : (save_posts_batch db.posts
      ((fetched_posts thread.total_posts fp.perPage fp.totalPage fetch).filter
        (fun p => !(post_exists db p.pid))) none).2
      = db.posts ++ (fetched_posts thread.total_posts fp.perPage fp.totalPage
          fetch).filter (fun p => !(post_exists db p.pid)) := by
    rw [save_posts_batch_none]
    refine foldl_upsert_fresh _ _ ?_ ?_
    · intro p hp
      have := (List.mem_filter.mp hp).2
      unfold post_exists at this
      simpa using this
    · exact List.Nodup.sublist ((List.filter_sublist _).map _) hnodup
  have hfilter : ∀ l : List Post,
      l.filter (fun p => ((cfg.author_filter.getD []).isEmpty
        || (cfg.author_filter.getD []).contains p.author_uid))
      = l.filter (notification_eligible cfg.author_filter) := by
    intro l
    exact List.filter_congr (fun p _ => notification_eligible_eq _ p)
  simp only [check_thread, hcfg, hth, hfp]
  rw [if_neg hcond]
  refine ⟨?_, rfl, ?_, ?_⟩
  · show (if _ then _ else _ : DB).posts = _
    rw [apply_ite DB.posts]
    simp only [posts_log_event, posts_update_monitored, posts_save_thread,
      ite_self]
    exact hsave
  · exact hfilter _
  · rw [hfilter]
    rfl

/-- C6 example state: a freshly tracked thread (stored total 0, no posts),
author filter `{100}`. -/
def c6_thread : ThreadData := ⟨88, "t6", "op", 1, 0, 1⟩

/-- Subscription row for thread 88 with `author_filter = [100]`. -/
def c6_row : MonitoredRow := ⟨some [100], none, 300, none, 0, true⟩

/-- The C6 database state. -/
def c6_db : DB := ⟨[c6_thread], [], [(88, c6_row)], []⟩

/-- Page 1 of thread 88: three posts by authors 100, 200, 100. -/
def c6_page : PageResult :=
  ⟨"t6", "op", 1, 3, 1, 20,
    [⟨1, 88, 9, "a", 100, "d", 1, "p1", 0⟩,
     ⟨2, 88, 9, "b", 200, "d", 2, "p2", 1⟩,
     ⟨3, 88, 9, "a", 100, "d", 3, "p3", 2⟩]⟩

/-- Fetch function for the C6 state. -/
def c6_fetch : Nat → Option PageResult := fun p =>
  if p = 1 then some c6_page else none

/-- Witness for C6 at the spec's example: author filter `{100}` over new
posts from authors `{100, 200, 100}` persists all three posts and marks
exactly the two from author 100 as notification-eligible. -/
theorem C6_pid_dedup_author_filter_witness :
    (check_thread c6_db 88 c6_fetch 5).db.posts.length = 3
    ∧ (check_thread c6_db 88 c6_fetch 5).result.total_new_posts = 3
    ∧ (check_thread c6_db 88 c6_fetch 5).result.new_posts = 2
    ∧ ((check_thread c6_db 88 c6_fetch 5).result.posts.map
        (fun p => p.author_uid)) = [100, 100] := by
  have h := C6_pid_dedup_author_filter c6_db 88 c6_fetch 5 c6_row c6_thread
    c6_page rfl rfl rfl (by decide) (by decide)
  refine ⟨?_, ?_, ?_, ?_⟩
  · rw [h.1]; decide
  · rw [h.2.1]; decide
  · rw [h.2.2.2]; decide
  · rw [h.2.2.1]; decide

/-! ## C7 -/

@[simp] theorem events_log_event (db : DB) (tid : Nat) (ty : String)
    (c : Nat) (m : String) :
    (log_event db tid ty c m).events = db.events ++ [⟨tid, ty, c, m⟩] := rfl

theorem find?_thread_upsert (t : ThreadData) :
    ∀ l : List ThreadData,
    ∃ u, ((if l.any (fun v => v.tid == t.tid) then
            l.map (fun v => if v.tid == t.tid then
              { v with title := t.title, total_posts := t.total_posts,
                       total_pages := t.total_pages } else v)
          else l ++ [t]).find? (fun v => v.tid == t.tid)) = some u
      ∧ u.title = t.title ∧ u.total_posts = t.total_posts
      ∧ u.total_pages = t.total_pages := by
  intro l
  induction l with
  | nil =>
    refine ⟨t, ?_, rfl, rfl, rfl⟩
    simp
  | cons v l' ih =>
    by_cases hv : v.tid == t.tid
    · refine ⟨{ v with title := t.title, total_posts := t.total_posts,
                       total_pages := t.total_pages }, ?_, rfl, rfl, rfl⟩
      rw [if_pos (by simp [hv]), List.map_cons, if_pos hv]
      exact List.find?_cons_of_pos _ hv
    · rcases ih with ⟨u, hu, hut, hup, hug⟩
      refine ⟨u, ?_, hut, hup, hug⟩
      by_cases h2 : l'.any (fun v => v.tid == t.tid)
      · rw [if_pos h2] at hu
        rw [if_pos (by simp [h2]), List.map_cons, if_neg hv]
        exact (@List.find?_cons_of_neg _ (fun w => w.tid == t.tid) v _ hv).trans hu
      · rw [if_neg h2] at hu
        rw [if_neg (by simp [hv, h2]), List.cons_append]
        exact (@List.find?_cons_of_neg _ (fun w => w.tid == t.tid) v _ hv).trans hu

/-- After `save_thread db t`, the row stored under `t.tid` reports `t`'s
title and counts. -/
theorem get_thread_save_thread (db : DB) (t : ThreadData) :
    ∃ u, get_thread (save_thread db t) t.tid = some u
      ∧ u.title = t.title ∧ u.total_posts = t.total_posts
      ∧ u.total_pages = t.total_pages :=
  find?_thread_upsert t db.threads

theorem find?_update_monitored (tid : Nat) (f : MonitoredRow → MonitoredRow) :
    ∀ l : List (Nat × MonitoredRow),
    (l.map (fun kv => if kv.1 == tid then (kv.1, f kv.2) else kv)).find?
        (fun kv => kv.1 == tid)
      = (l.find? (fun kv => kv.1 == tid)).map (fun kv => (kv.1, f kv.2)) := by
  intro l
  induction l with
  | nil => rfl
  | cons kv l' ih =>
    by_cases h : kv.1 == tid
    · rw [List.map_cons, if_pos h,
        @List.find?_cons_of_pos _ (fun kv => kv.1 == tid) (kv.1, f kv.2) _ h,
        @List.find?_cons_of_pos _ (fun kv => kv.1 == tid) kv l' h]
      rfl
    · rw [List.map_cons, if_neg h,
        @List.find?_cons_of_neg _ (fun kv => kv.1 == tid) kv _ h,
        @List.find?_cons_of_neg _ (fun kv => kv.1 == tid) kv l' h, ih]

theorem get_monitored_active_is_active {db : DB} {tid : Nat} {r : MonitoredRow}
    (h : get_monitored_active db tid = some r) : r.is_active = true := by
  unfold get_monitored_active at h
  cases hf : db.monitored.find? (fun kv => kv.1 == tid) with
  | none => rw [hf] at h; cases h
  | some kv =>
    rw [hf, Option.some_bind] at h
    by_cases ha : kv.2.is_active
    · rw [if_pos ha] at h
      rw [← Option.some.inj h]
      exact ha
    · rw [if_neg ha] at h
      cases h

theorem get_monitored_active_update (db : DB) (tid : Nat)
    (f : MonitoredRow → MonitoredRow) (r : MonitoredRow)
    (h : get_monitored_active db tid = some r)
    (hact : (f r).is_active = true) :
    get_monitored_active (update_monitored db tid f) tid = some (f r) := by
  have hm : (update_monitored db tid f).monitored
      = db.monitored.map (fun kv => if kv.1 == tid then (kv.1, f kv.2) else kv) := rfl
  unfold get_monitored_active at h ⊢
  rw [hm, find?_update_monitored]
  cases hf : db.monitored.find? (fun kv => kv.1 == tid) with
  | none => rw [hf] at h; cases h
  | some kv =>
    rw [hf, Option.some_bind] at h
    rw [Option.map_some', Option.some_bind]
    by_cases ha : kv.2.is_active
    · rw [if_pos ha] at h
      have hr : kv.2 = r := Option.some.inj h
      rw [hr, if_pos hact]
    · rw [if_neg ha] at h
      cases h

/-- The no-change branch of `check_thread`, fully characterised: the check
fetches page 1 only, touches `last_checked`, logs the `check` event, saves
the refreshed metadata and returns the zero-new-posts dictionary. -/
theorem check_no_change (db : DB) (tid : Nat)
    (fetch : Nat → Option PageResult) (now : Nat) (cfg : MonitoredRow)
    (thread : ThreadData) (fp : PageResult)
    (hcfg : get_monitored_active db tid = some cfg)
    (hth : get_thread db tid = some thread)
    (hfp : fetch 1 = some fp)
    (hle : fp.vrows ≤ thread.total_posts) :
    check_thread db tid fetch now
      = ⟨{ new_posts := 0, total_posts := fp.vrows },
         save_thread
           (log_event
             (update_monitored db tid (fun r => { r with last_checked := some now }))
             tid "check" 0 "No new posts")
           (parse_page_thread fp),
         [1], []⟩ := by
  simp only [check_thread, hcfg, hth, hfp]
  rw [if_pos (by omega)]

/-- C7: a no-change check is idempotent on storage.  When the fresh page-1
fetch reports no more posts than are stored, `check_thread` fetches no
further pages, leaves the posts table unchanged, emits exactly one `check`
event with post count 0, sends no notification, changes the subscriptions
only by touching `last_checked`, and refreshes the stored thread total to
the reported value; re-running the check leaves the posts table and the
stored total unchanged. -/
theorem C7_no_change_idempotent (db : DB) (tid : Nat)
    (fetch : Nat → Option PageResult) (now now2 : Nat) (cfg : MonitoredRow)
    (thread : ThreadData) (fp : PageResult)
    (hcfg : get_monitored_active db tid = some cfg)
    (hth : get_thread db tid = some thread)
    (hfp : fetch 1 = some fp)
    (hle : fp.vrows ≤ thread.total_posts)
    (htid : (parse_page_thread fp).tid = tid) :
    (check_thread db tid fetch now).fetched = [1]
    ∧ (check_thread db tid fetch now).db.posts = db.posts
    ∧ (check_thread db tid fetch now).db.events
        = db.events ++ [⟨tid, "check", 0, "No new posts"⟩]
    ∧ (check_thread db tid fetch now).result
        = { new_posts := 0, total_posts := fp.vrows }
    ∧ (check_thread db tid fetch now).notified = []
    ∧ (check_thread db tid fetch now).db.monitored
        = (update_monitored db tid
            (fun r => { r with last_checked := some now })).monitored
    ∧ (get_thread (check_thread db tid fetch now).db tid).map
        (fun u => u.total_posts) = some fp.vrows
    ∧ (check_thread (check_thread db tid fetch now).db tid fetch now2).db.posts
        = (check_thread db tid fetch now).db.posts
    ∧ (get_thread
        (check_thread (check_thread db tid fetch now).db tid fetch now2).db tid).map
        (fun u => u.total_posts) = some fp.vrows := by
  have h1 := check_no_change db tid fetch now cfg thread fp hcfg hth hfp hle
  rcases get_thread_save_thread
      (log_event
        (update_monitored db tid (fun r => { r with last_checked := some now }))
        tid "check" 0 "No new posts")
      (parse_page_thread fp) with ⟨u, hu, _, hup, _⟩
  rw [htid] at hu
  have hth1 : get_thread (check_thread db tid fetch now).db tid = some u := by
    rw [h1]
    exact hu
  have htotal : (get_thread (check_thread db tid fetch now).db tid).map
      (fun v => v.total_posts) = some fp.vrows := by
    rw [hth1, Option.map_some', hup]
    rfl
  have hcfg1 : get_monitored_active (check_thread db tid fetch now).db tid
      = some { cfg with last_checked := some now } := by
    rw [h1]
    exact get_monitored_active_update db tid
      (fun r => { r with last_checked := some now }) cfg hcfg
      (@get_monitored_active_is_active db tid cfg hcfg)
  have hle2 : fp.vrows ≤ u.total_posts := by
    rw [hup]
    rfl
  have h2 := check_no_change (check_thread db tid fetch now).db tid fetch now2
    { cfg with last_checked := some now } u fp hcfg1 hth1 hfp hle2
  refine ⟨by rw [h1], by rw [h1]; simp, by rw [h1]; simp, by rw [h1],
    by rw [h1], by rw [h1]; simp, htotal, by rw [h2]; simp, ?_⟩
  rcases get_thread_save_thread
      (log_event
        (update_monitored (check_thread db tid fetch now).db tid
          (fun r => { r with last_checked := some now2 }))
        tid "check" 0 "No new posts")
      (parse_page_thread fp) with ⟨w, hw, _, hwp, _⟩
  rw [htid] at hw
  rw [h2, hw, Option.map_some', hwp]
  rfl

/-- C7 example: stored thread 91 with 41 posts. -/
def c7_thread : ThreadData := ⟨91, "t7", "op", 1, 41, 3⟩

/-- Subscription row for thread 91. -/
def c7_row : MonitoredRow := ⟨none, none, 300, none, 0, true⟩

/-- One stored post of thread 91. -/
def c7_post : Post := ⟨700, 91, 9, "u", 100, "d", 40, "x", 40⟩

/-- The C7 database state. -/
def c7_db : DB := ⟨[c7_thread], [c7_post], [(91, c7_row)], []⟩

/-- Fresh page 1 of thread 91, still reporting 41 posts. -/
def c7_page : PageResult :=
  ⟨"t7", "op", 1, 41, 3, 20, [⟨701, 91, 9, "u", 100, "d", 1, "y", 0⟩]⟩

/-- Fetch function for the C7 state. -/
def c7_fetch : Nat → Option PageResult := fun p =>
  if p = 1 then some c7_page else none

/-- Witness for C7 on a concrete up-to-date state: stored total 41,
fresh total 41. -/
theorem C7_no_change_idempotent_witness :
    (check_thread c7_db 91 c7_fetch 50).fetched = [1]
    ∧ (check_thread c7_db 91 c7_fetch 50).db.posts = c7_db.posts
    ∧ (check_thread (check_thread c7_db 91 c7_fetch 50).db 91 c7_fetch 60).db.posts
        = (check_thread c7_db 91 c7_fetch 50).db.posts := by
  have h := C7_no_change_idempotent c7_db 91 c7_fetch 50 60 c7_row c7_thread
    c7_page rfl rfl rfl (by decide) (by decide)
  exact ⟨h.1, h.2.1, h.2.2.2.2.2.2.2.1⟩

/-! ## C8 -/

theorem check_all_foldl_processed (fetch : Nat → Nat → Option PageResult)
    (excs : Nat → Option String) (now : Nat) :
    ∀ (tids : List Nat) (d : DB) (c n : Nat) (acc : List Nat),
    (tids.foldl (check_all_step fetch excs now) (d, c, n, acc)).2.2.2
      = acc ++ tids := by
  intro tids
  induction tids with
  | nil => intro d c n acc; simp
  | cons t rest ih =>
    intro d c n acc
    rw [List.foldl_cons]
    cases hout : (check_thread_run (excs t) d t (fetch t) now).result.error with
    | none =>
      rw [show check_all_step fetch excs now (d, c, n, acc) t
          = ((check_thread_run (excs t) d t (fetch t) now).db, c + 1,
             n + (check_thread_run (excs t) d t (fetch t) now).result.new_posts,
             acc ++ [t]) by
        simp [check_all_step, hout], ih]
      simp
    | some e =>
      rw [show check_all_step fetch excs now (d, c, n, acc) t
          = ((check_thread_run (excs t) d t (fetch t) now).db, c, n,
             acc ++ [t]) by
        simp [check_all_step, hout], ih]
      simp

/-- C8: per-thread failure absorption.  An exception raised during a
thread's check body is caught inside `check_thread` (`check_thread_run`):
it is recorded as an `error` monitoring event and turned into an error
dictionary rather than propagating; consequently `check_all` processes
every listed thread — its processed-tid trace is the full monitored list,
whatever exceptions individual checks raise — and reports the full count. -/
theorem C8_error_absorbed (db : DB) (tid : Nat) (e : String)
    (fetch : Nat → Nat → Option PageResult) (excs : Nat → Option String)
    (now : Nat) :
    (check_thread_run (some e) db tid (fetch tid) now).result.error
      = some ("Error checking thread: " ++ e)
    ∧ (check_thread_run (some e) db tid (fetch tid) now).db.events
      = db.events ++ [⟨tid, "error", 0, "Error checking thread: " ++ e⟩]
    ∧ (check_thread_run (some e) db tid (fetch tid) now).db.posts = db.posts
    ∧ (check_all db fetch excs now).processed = list_monitored_tids db
    ∧ (check_all db fetch excs now).total = (list_monitored_tids db).length := by
  refine ⟨rfl, rfl, rfl, ?_, rfl⟩
  show (List.foldl (check_all_step fetch excs now)
      (db, 0, 0, []) (list_monitored_tids db)).2.2.2 = list_monitored_tids db
  rw [check_all_foldl_processed]
  simp

/-! ## C5 -/

theorem le_foldl_max (l : List Int) (a : Int) : a ≤ l.foldl max a := by
  induction l generalizing a with
  | nil => exact le_refl a
  | cons x xs ih =>
    rw [List.foldl_cons]
    exact le_trans (le_max_left a x) (ih (max a x))

theorem mem_le_foldl_max (b : Int) :
    ∀ (l : List Int) (a : Int), b ∈ l → b ≤ l.foldl max a := by
  intro l
  induction l with
  | nil => intro a hb; cases hb
  | cons x xs ih =>
    intro a hb
    rw [List.foldl_cons]
    rcases List.mem_cons.mp hb with rfl | h
    · exact le_trans (le_max_right a b) (le_foldl_max xs (max a b))
    · exact ih (max a x) h

theorem max_post_number_nonneg {ps : List Post} {tid : Nat}
    (h : 0 < post_count ps tid) : 0 ≤ max_post_number ps tid := by
  unfold post_count at h
  unfold max_post_number
  obtain ⟨p, hp⟩ : ∃ p, p ∈ ps.filter (fun p => p.tid == tid) := by
    cases hfil : ps.filter (fun p => p.tid == tid) with
    | nil => rw [hfil] at h; cases h
    | cons q qs => exact ⟨q, List.mem_cons_self q qs⟩
  refine le_trans (Int.natCast_nonneg p.post_number) ?_
  exact mem_le_foldl_max _ _ _ (List.mem_map_of_mem (fun p => (p.post_number : Int)) hp)

theorem sync_start_page_of_nonneg {m ppp : Int} (hm : 0 ≤ m) (hppp : 0 ≤ ppp) :
    sync_start_page m ppp = Int.fdiv m ppp + 1 := by
  unfold sync_start_page
  rw [if_neg]
  have := Int.fdiv_nonneg hm hppp
  omega

theorem mem_sync_page_callback {m : Int} {d : DB}
    {pr : Nat × Option PageResult} {q : Post}
    (h : q ∈ (sync_page_callback m d pr).posts) :
    q ∈ d.posts ∨ (q.post_number : Int) > m := by
  obtain ⟨pn, res⟩ := pr
  cases res with
  | none => exact Or.inl h
  | some r =>
    simp only [sync_page_callback] at h
    by_cases hlen : ((parse_page_posts r).filter
        (fun p => (p.post_number : Int) > m)).length > 0
    · rw [if_pos hlen] at h
      have h2 : q ∈ (save_posts_batch d.posts
          ((parse_page_posts r).filter (fun p => (p.post_number : Int) > m))
          none).2 := h
      rw [save_posts_batch_none] at h2
      rcases mem_foldl_upsert h2 with h' | h'
      · exact Or.inl h'
      · right
        have := (List.mem_filter.mp h').2
        exact of_decide_eq_true this
    · rw [if_neg hlen] at h
      exact Or.inl h

theorem mem_sync_fold {m : Int} {q : Post} :
    ∀ (inv : List (Nat × Option PageResult)) (d : DB),
    q ∈ (inv.foldl (sync_page_callback m) d).posts →
    q ∈ d.posts ∨ (q.post_number : Int) > m := by
  intro inv
  induction inv with
  | nil => intro d h; exact Or.inl h
  | cons pr rest ih =>
    intro d h
    rw [List.foldl_cons] at h
    rcases ih _ h with h' | h'
    · exact mem_sync_page_callback h'
    · exact Or.inr h'

@[simp] theorem posts_sync_upsert (db : DB) (tc : ThreadConfig) (ex : Bool)
    (now : Nat) : (sync_upsert_monitored db tc ex now).posts = db.posts := by
  cases ex <;> rfl

@[simp] theorem threads_sync_upsert (db : DB) (tc : ThreadConfig) (ex : Bool)
    (now : Nat) : (sync_upsert_monitored db tc ex now).threads = db.threads := by
  cases ex <;> rfl

@[simp] theorem events_sync_upsert (db : DB) (tc : ThreadConfig) (ex : Bool)
    (now : Nat) : (sync_upsert_monitored db tc ex now).events = db.events := by
  cases ex <;> rfl

theorem find?_append_right {α : Type} (p : α → Bool) :
    ∀ (l l2 : List α), l.find? p = none → (l ++ l2).find? p = l2.find? p := by
  intro l
  induction l with
  | nil => intro l2 _; rfl
  | cons a l' ih =>
    intro l2 h
    by_cases hpa : p a
    · rw [@List.find?_cons_of_pos _ p a l' hpa] at h
      cases h
    · rw [List.cons_append, @List.find?_cons_of_neg _ p a (l' ++ l2) hpa]
      refine ih l2 ?_
      rw [@List.find?_cons_of_neg _ p a l' hpa] at h
      exact h

theorem get_monitored_update (db : DB) (tid : Nat)
    (f : MonitoredRow → MonitoredRow) (r : MonitoredRow)
    (h : get_monitored db tid = some r) :
    get_monitored (update_monitored db tid f) tid = some (f r) := by
  have hm : (update_monitored db tid f).monitored
      = db.monitored.map (fun kv => if kv.1 == tid then (kv.1, f kv.2) else kv) := rfl
  unfold get_monitored at h ⊢
  rw [hm, find?_update_monitored]
  cases hf : db.monitored.find? (fun kv => kv.1 == tid) with
  | none => rw [hf] at h; cases h
  | some kv =>
    rw [hf, Option.map_some'] at h
    rw [Option.map_some', Option.map_some']
    rw [Option.some.inj h]

theorem get_monitored_insert_none (db : DB) (tid : Nat) (row : MonitoredRow)
    (h : get_monitored db tid = none) :
    get_monitored (insert_monitored db tid row) tid = some row := by
  have hm : (insert_monitored db tid row).monitored
      = db.monitored ++ [(tid, row)] := rfl
  unfold get_monitored at h ⊢
  have hnone : db.monitored.find? (fun kv => kv.1 == tid) = none := by
    cases hf : db.monitored.find? (fun kv => kv.1 == tid) with
    | none => rfl
    | some kv => rw [hf] at h; cases h
  rw [hm, find?_append_right _ _ _ hnone]
  simp

theorem monitored_exists_of_get (db : DB) (tid : Nat) (r : MonitoredRow)
    (h : get_monitored db tid = some r) : monitored_exists db tid = true := by
  unfold get_monitored at h
  unfold monitored_exists
  cases hf : db.monitored.find? (fun kv => kv.1 == tid) with
  | none => rw [hf] at h; cases h
  | some kv =>
    exact List.any_eq_true.mpr
      ⟨kv, @List.mem_of_find?_eq_some _ (fun kv => kv.1 == tid) kv db.monitored hf,
       @List.find?_some _ (fun kv => kv.1 == tid) kv db.monitored hf⟩

theorem monitored_exists_false_of_none (db : DB) (tid : Nat)
    (h : get_monitored db tid = none) : monitored_exists db tid = false := by
  unfold get_monitored at h
  unfold monitored_exists
  have hnone : db.monitored.find? (fun kv => kv.1 == tid) = none := by
    cases hf : db.monitored.find? (fun kv => kv.1 == tid) with
    | none => rfl
    | some kv => rw [hf] at h; cases h
  exact List.any_eq_false.mpr
    (fun x hx hpx => (List.find?_eq_none.mp hnone x hx) hpx)

/-- C5: reconciliation postcondition of the config sync for a thread that
already has stored posts.  If the stored max post number is at least
`current_total_posts - 1`, no page beyond page 1 is fetched, the posts and
threads tables are untouched, and only the subscription row is written:
filter, notification set, interval and active flag take the config values,
and an existing row keeps its `last_checked` and `last_post_timestamp`.
Otherwise the crawled range starts at `max_post_number / posts_per_page + 1`
(floor division) and runs to the reported total page count, and every post
persisted beyond the pre-existing table content has
`post_number > max_post_number` — posts at or below the stored maximum are
discarded before persisting. -/
theorem C5_reconciliation (db : DB) (tc : ThreadConfig)
    (fetch : Nat → Option PageResult) (order : List Nat) (now : Nat)
    (fp : PageResult)
    (hpc : 0 < post_count db.posts tc.tid)
    (hfp : fetch 1 = some fp) :
    (max_post_number db.posts tc.tid ≥ (fp.vrows : Int) - 1 →
      (sync_thread_with_posts db tc fetch order now).fetched = [1]
      ∧ (sync_thread_with_posts db tc fetch order now).db.posts = db.posts
      ∧ (sync_thread_with_posts db tc fetch order now).db.threads = db.threads
      ∧ (sync_thread_with_posts db tc fetch order now).db.events = db.events
      ∧ (∀ r0, get_monitored db tc.tid = some r0 →
          get_monitored (sync_thread_with_posts db tc fetch order now).db tc.tid
            = some { r0 with author_filter := tc.author_filter,
                             author_notification := tc.author_notification,
                             check_interval := tc.check_interval,
                             is_active := true })
      ∧ (get_monitored db tc.tid = none →
          get_monitored (sync_thread_with_posts db tc fetch order now).db tc.tid
            = some ⟨tc.author_filter, tc.author_notification, tc.check_interval,
                    some now, latest_timestamp db.posts tc.tid, true⟩))
    ∧ (¬ (max_post_number db.posts tc.tid ≥ (fp.vrows : Int) - 1) →
      sync_start_page (max_post_number db.posts tc.tid) (fp.perPage : Int)
        = Int.fdiv (max_post_number db.posts tc.tid) (fp.perPage : Int) + 1
      ∧ (sync_thread_with_posts db tc fetch order now).fetched
        = 1 :: pyRange ((sync_start_page (max_post_number db.posts tc.tid)
            (fp.perPage : Int)).toNat) fp.totalPage
      ∧ ∀ q ∈ (sync_thread_with_posts db tc fetch order now).db.posts,
          q ∈ db.posts ∨ (q.post_number : Int) > max_post_number db.posts tc.tid) := by
  have hm0 : (0 : Int) ≤ max_post_number db.posts tc.tid :=
    max_post_number_nonneg hpc
  constructor
  · intro hup
    have hrun : sync_thread_with_posts db tc fetch order now
        = ⟨sync_upsert_monitored db tc (monitored_exists db tc.tid) now, [1],
           if monitored_exists db tc.tid then 0 else 1,
           if monitored_exists db tc.tid then 1 else 0, []⟩ := by
      simp only [sync_thread_with_posts, hfp]
      rw [if_pos hup]
    refine ⟨by rw [hrun], by rw [hrun]; simp, by rw [hrun]; simp,
      by rw [hrun]; simp, ?_, ?_⟩
    · intro r0 hr0
      rw [hrun]
      show get_monitored (sync_upsert_monitored db tc
        (monitored_exists db tc.tid) now) tc.tid = _
      rw [show sync_upsert_monitored db tc (monitored_exists db tc.tid) now
          = update_monitored db tc.tid (fun r =>
              { r with author_filter := tc.author_filter,
                       author_notification := tc.author_notification,
                       check_interval := tc.check_interval,
                       is_active := true }) by
        unfold sync_upsert_monitored
        rw [if_pos (monitored_exists_of_get db tc.tid r0 hr0)]]
      exact get_monitored_update db tc.tid _ r0 hr0
    · intro hnone
      rw [hrun]
      show get_monitored (sync_upsert_monitored db tc
        (monitored_exists db tc.tid) now) tc.tid = _
      rw [show sync_upsert_monitored db tc (monitored_exists db tc.tid) now
          = insert_monitored db tc.tid
              ⟨tc.author_filter, tc.author_notification, tc.check_interval,
               some now, latest_timestamp db.posts tc.tid, true⟩ by
        unfold sync_upsert_monitored
        rw [if_neg (by
          rw [monitored_exists_false_of_none db tc.tid hnone]
          simp)]]
      exact get_monitored_insert_none db tc.tid _ hnone
  · intro hdown
    have hstart := sync_start_page_of_nonneg hm0
      (Int.natCast_nonneg fp.perPage)
    have hrun : sync_thread_with_posts db tc fetch order now
        = ⟨sync_upsert_monitored
             ((crawl_pages_range_with_callback fetch
                ((sync_start_page (max_post_number db.posts tc.tid)
                  (fp.perPage : Int)).toNat)
                fp.totalPage order (fun _ => false)).foldl
               (sync_page_callback (max_post_number db.posts tc.tid))
               (save_thread db (parse_page_thread fp)))
             tc (monitored_exists db tc.tid) now,
           1 :: pyRange ((sync_start_page (max_post_number db.posts tc.tid)
             (fp.perPage : Int)).toNat) fp.totalPage,
           if monitored_exists db tc.tid then 0 else 1,
           if monitored_exists db tc.tid then 1 else 0, []⟩ := by
      simp only [sync_thread_with_posts, hfp]
      rw [if_neg hdown]
    refine ⟨hstart, by rw [hrun], ?_⟩
    intro q hq
    rw [hrun] at hq
    rw [show (⟨_, _, _, _, _⟩ : SyncOutput).db = _ from rfl,
      posts_sync_upsert] at hq
    rcases mem_sync_fold _ _ hq with h' | h'
    · rw [posts_save_thread] at h'
      exact Or.inl h'
    · exact Or.inr h'

/-- C5 example: one stored post of thread 95, `post_number = 10`. -/
def c5_post : Post := ⟨800, 95, 9, "u", 100, "d", 30, "x", 10⟩

/-- C5 config entry for thread 95. -/
def c5_tc : ThreadConfig := ⟨95, some [100], none, 120⟩

/-- C5 behind-state: posts exist (max post number 10), no subscription row. -/
def c5_db : DB := ⟨[], [c5_post], [], []⟩

/-- Fresh page 1 for the behind case: 45 posts over 3 pages. -/
def c5_page1 : PageResult := ⟨"t5", "op", 1, 45, 3, 20, []⟩

/-- Page 2: one already-covered post (number 5) and one new post (25). -/
def c5_page2 : PageResult :=
  ⟨"t5", "op", 1, 45, 3, 20,
    [⟨801, 95, 9, "u", 100, "d", 31, "y", 5⟩,
     ⟨802, 95, 9, "u", 100, "d", 32, "y", 25⟩]⟩

/-- Page 3: one new post (number 44). -/
def c5_page3 : PageResult :=
  ⟨"t5", "op", 1, 45, 3, 20, [⟨803, 95, 9, "u", 100, "d", 33, "y", 44⟩]⟩

/-- Fetch function for the C5 behind case. -/
def c5_fetch : Nat → Option PageResult := fun p =>
  if p = 1 then some c5_page1 else if p = 2 then some c5_page2
  else if p = 3 then some c5_page3 else none

/-- Subscription row already present for the up-to-date case. -/
def c5b_row : MonitoredRow := ⟨none, none, 300, some 3, 7, false⟩

/-- C5 up-to-date state: stored max post number 10 against a fresh total of
11. -/
def c5b_db : DB := ⟨[], [c5_post], [(95, c5b_row)], []⟩

/-- Fresh page 1 for the up-to-date case: 11 posts. -/
def c5b_page1 : PageResult := ⟨"t5", "op", 1, 11, 1, 20, []⟩

/-- Fetch function for the C5 up-to-date case. -/
def c5b_fetch : Nat → Option PageResult := fun p =>
  if p = 1 then some c5b_page1 else none

/-- Witness for C5: in the behind state the crawl fetches pages
`[1, 2, 3]` after page 1 (start page `10 / 20 + 1 = 1`) and persists only
posts numbered beyond 10; in the up-to-date state only page 1 is fetched
and the posts table is untouched. -/
theorem C5_reconciliation_witness :
    (sync_thread_with_posts c5_db c5_tc c5_fetch [2, 1, 3] 9).fetched
      = [1, 1, 2, 3]
    ∧ (∀ q ∈ (sync_thread_with_posts c5_db c5_tc c5_fetch [2, 1, 3] 9).db.posts,
        q ∈ c5_db.posts ∨ (q.post_number : Int) > max_post_number c5_db.posts 95)
    ∧ (sync_thread_with_posts c5b_db c5_tc c5b_fetch [] 9).fetched = [1]
    ∧ (sync_thread_with_posts c5b_db c5_tc c5b_fetch [] 9).db.posts
      = c5b_db.posts := by
  have h := (C5_reconciliation c5_db c5_tc c5_fetch [2, 1, 3] 9 c5_page1
    (by decide) rfl).2 (by decide)
  have h2 := (C5_reconciliation c5b_db c5_tc c5b_fetch [] 9 c5b_page1
    (by decide) rfl).1 (by decide)
  exact ⟨h.2.1, h.2.2, h2.1, h2.2.1⟩

end NGAReminder
